import Mathlib

/-!
Shallow embedding of the c_str::basic_builder class template from
c_str_builder.hpp.

Characters of every supported width are modelled as natural numbers, the
null character being 0.  Pointer values of type const CharT* are modelled
symbolically: a pointer is either the null pointer, the address of the
per-instantiation static zero character _m_zero, the address of
caller-owned external memory, or the data address of the owned
_m_zero_suffixed buffer of the adapter identified by an object id (two
simultaneously live objects have distinct ids, mirroring distinct
addresses).  Contents of external memory are supplied to the observers
through an explicit map from addresses to character lists.
-/

set_option autoImplicit false

namespace c_str

/-- The five character widths admitted by the common_char_type concept. -/
inductive Width where
  | narrow : Width
  | wide : Width
  | utf8 : Width
  | utf16 : Width
  | utf32 : Width
deriving DecidableEq

/-- The if_null enumeration selecting the behavior on a null source. -/
inductive if_null where
  | make_zero_length : if_null
  | keep_null_pointer : if_null
deriving DecidableEq

/-- Symbolic pointer value of type const CharT*. -/
inductive Ptr where
  | null : Ptr
  | static_zero (w : Width) (p : if_null) : Ptr
  | ext (a : Nat) : Ptr
  | own (id : Nat) : Ptr
deriving DecidableEq

/-- The source categories a basic_builder can be constructed from, as
dispatched by the if-constexpr chain in _get_ptr: the nullptr literal, a
raw CharT* pointer (possibly null), a std::basic_string, a
std::filesystem::path, and a generic contiguous sized sequence (array,
std::array, basic_string_view, initializer_list, span, vector) whose
element data lives at an external address. -/
inductive Source where
  | null_lit : Source
  | raw_ptr (p : Option Nat) : Source
  | owned_str (a : Nat) : Source
  | fs_path (a : Nat) : Source
  | seq (a : Nat) (data : List Nat) : Source
deriving DecidableEq

/-- State of one basic_builder object: its object id (address), the two
template parameters, the _m_zero_suffixed owned buffer contents, and the
_m_ptr pointer member. -/
structure basic_builder where
  id : Nat
  width : Width
  policy : if_null
  zero_suffixed : List Nat
  ptr : Ptr
deriving DecidableEq

/-- The private _get_ptr member: computes the resulting C-string pointer
for a source, assigning the owned buffer exactly on the copy path.  The
result pairs the new _m_zero_suffixed contents with the new _m_ptr. -/
def get_ptr (w : Width) (p : if_null) (id : Nat) : Source → List Nat × Ptr
  | Source.null_lit =>
      if p = if_null.make_zero_length then ([], Ptr.static_zero w p)
      else ([], Ptr.null)
  | Source.raw_ptr none =>
      if p = if_null.make_zero_length then ([], Ptr.static_zero w p)
      else ([], Ptr.null)
  | Source.raw_ptr (some a) => ([], Ptr.ext a)
  | Source.owned_str a => ([], Ptr.ext a)
  | Source.fs_path a => ([], Ptr.ext a)
  | Source.seq a data =>
      if h : data = [] then ([], Ptr.static_zero w p)
      else if data.getLast h ≠ 0 then (data, Ptr.own id)
      else ([], Ptr.ext a)

/-- Construction of a basic_builder object with object id from a source
(the converting constructor; _m_ptr is initialized from _get_ptr). -/
def basic_builder.mk_from (w : Width) (p : if_null) (id : Nat) (src : Source) :
    basic_builder :=
  ⟨id, w, p, (get_ptr w p id src).1, (get_ptr w p id src).2⟩

/-- The default constructor: constructs like from nullptr. -/
def basic_builder.default_ctor (w : Width) (p : if_null) (id : Nat) : basic_builder :=
  basic_builder.mk_from w p id Source.null_lit

/-- The private _copy_used_member helper: a receives other's state; the
ownership test is pointer identity of other's _m_ptr with the data address
of other's own _m_zero_suffixed buffer. -/
def basic_builder.copy_used_member (a other : basic_builder) : basic_builder :=
  if other.ptr = Ptr.own other.id then
    { a with zero_suffixed := other.zero_suffixed, ptr := Ptr.own a.id }
  else
    { a with ptr := other.ptr }

/-- The pointer installed into the moved-from object by the if-constexpr
tail of _move_used_member: the address of _m_zero under make_zero_length,
null otherwise. -/
def moved_from_ptr (other : basic_builder) : Ptr :=
  if other.policy = if_null.make_zero_length then
    Ptr.static_zero other.width other.policy
  else Ptr.null

/-- The private _move_used_member helper: returns the new states of the
destination and of the moved-from object.  The moved-from object's _m_ptr
is reset per the null policy; its buffer is cleared only on the owning
path. -/
def basic_builder.move_used_member (a other : basic_builder) :
    basic_builder × basic_builder :=
  if other.ptr = Ptr.own other.id then
    ({ a with zero_suffixed := other.zero_suffixed, ptr := Ptr.own a.id },
     { other with zero_suffixed := [], ptr := moved_from_ptr other })
  else
    ({ a with ptr := other.ptr },
     { other with ptr := moved_from_ptr other })

/-- Copy constructor: members are default-initialized (empty buffer, null
pointer), then _copy_used_member runs.  j is the fresh object's id. -/
def basic_builder.copy_ctor (j : Nat) (other : basic_builder) : basic_builder :=
  basic_builder.copy_used_member ⟨j, other.width, other.policy, [], Ptr.null⟩ other

/-- Move constructor: members are default-initialized, then
_move_used_member runs.  Returns (new object, moved-from object). -/
def basic_builder.move_ctor (j : Nat) (other : basic_builder) :
    basic_builder × basic_builder :=
  basic_builder.move_used_member ⟨j, other.width, other.policy, [], Ptr.null⟩ other

/-- Copy assignment: no-op on self (same object id), otherwise
_copy_used_member. -/
def basic_builder.copy_assign (a other : basic_builder) : basic_builder :=
  if a.id = other.id then a else basic_builder.copy_used_member a other

/-- Move assignment: no-op on self (same object id), otherwise
_move_used_member.  Returns (assigned-to object, moved-from object). -/
def basic_builder.move_assign (a other : basic_builder) :
    basic_builder × basic_builder :=
  if a.id = other.id then (a, other) else basic_builder.move_used_member a other

/-- The swap member function; returns the two new states.  Mirrors the
source: self-swap returns early; if neither buffer is used only the
pointers swap; otherwise the buffers swap and each pointer is either
repointed to its own buffer (if it was owning) or exchanged verbatim. -/
def basic_builder.swap (a b : basic_builder) : basic_builder × basic_builder :=
  if a.id = b.id then (a, b)
  else if a.ptr ≠ Ptr.own a.id ∧ b.ptr ≠ Ptr.own b.id then
    ({ a with ptr := b.ptr }, { b with ptr := a.ptr })
  else if a.ptr = Ptr.own a.id ∧ b.ptr = Ptr.own b.id then
    ({ a with zero_suffixed := b.zero_suffixed, ptr := Ptr.own a.id },
     { b with zero_suffixed := a.zero_suffixed, ptr := Ptr.own b.id })
  else if a.ptr = Ptr.own a.id then
    ({ a with zero_suffixed := b.zero_suffixed, ptr := b.ptr },
     { b with zero_suffixed := a.zero_suffixed, ptr := Ptr.own b.id })
  else
    ({ a with zero_suffixed := b.zero_suffixed, ptr := Ptr.own a.id },
     { b with zero_suffixed := a.zero_suffixed, ptr := a.ptr })

/-- The get member function: returns _m_ptr as-is. -/
def basic_builder.get (b : basic_builder) : Ptr := b.ptr

/-- char_traits::length: number of characters before the first null
character of the list (scanning from the front). -/
def strlen : List Nat → Nat
  | [] => 0
  | c :: cs => if c = 0 then 0 else strlen cs + 1

/-- The character sequence a pointer references, given the external memory
map and the owned buffer of the adapter holding the pointer.  The static
zero character reads as a single null; the owned buffer reads as its
contents followed by the terminator basic_string guarantees. -/
def c_str_at (mem : Nat → List Nat) (buf : List Nat) : Ptr → List Nat
  | Ptr.null => []
  | Ptr.static_zero _ _ => [0]
  | Ptr.ext a => mem a
  | Ptr.own _ => buf ++ [0]

/-- The length member function: under make_zero_length it scans
unconditionally; under keep_null_pointer it returns 0 without scanning on
a null pointer. -/
def basic_builder.length (b : basic_builder) (mem : Nat → List Nat) : Nat :=
  if b.policy = if_null.make_zero_length then
    strlen (c_str_at mem b.zero_suffixed b.ptr)
  else if b.ptr = Ptr.null then 0
  else strlen (c_str_at mem b.zero_suffixed b.ptr)

/-- Two builders belong to the same template instantiation. -/
def same_inst (a b : basic_builder) : Prop :=
  a.width = b.width ∧ a.policy = b.policy

/-- The adapter states reachable through the public interface:
construction from a source (the default constructor being construction
from nullptr), copy construction, move construction (both resulting
objects), copy assignment, move assignment (both resulting objects), and
swap (both resulting objects).  A freshly constructed object's id differs
from the id of any live object it interacts with; copy, move and swap are
only defined between objects of the same instantiation. -/
inductive Reachable : basic_builder → Prop where
  | construct (w : Width) (p : if_null) (id : Nat) (src : Source) :
      Reachable (basic_builder.mk_from w p id src)
  | copy_construct (j : Nat) (b : basic_builder) :
      Reachable b → j ≠ b.id → Reachable (basic_builder.copy_ctor j b)
  | move_construct_dst (j : Nat) (b : basic_builder) :
      Reachable b → j ≠ b.id → Reachable (basic_builder.move_ctor j b).1
  | move_construct_src (j : Nat) (b : basic_builder) :
      Reachable b → j ≠ b.id → Reachable (basic_builder.move_ctor j b).2
  | copy_assignment (a b : basic_builder) :
      Reachable a → Reachable b → same_inst a b →
      Reachable (basic_builder.copy_assign a b)
  | move_assignment_dst (a b : basic_builder) :
      Reachable a → Reachable b → same_inst a b →
      Reachable (basic_builder.move_assign a b).1
  | move_assignment_src (a b : basic_builder) :
      Reachable a → Reachable b → same_inst a b →
      Reachable (basic_builder.move_assign a b).2
  | swap_fst (a b : basic_builder) :
      Reachable a → Reachable b → same_inst a b →
      Reachable (basic_builder.swap a b).1
  | swap_snd (a b : basic_builder) :
      Reachable a → Reachable b → same_inst a b →
      Reachable (basic_builder.swap a b).2

/-- A pointer of owning form identifies the object's own buffer, which is
then non-empty.  This is the soundness of the pointer-identity ownership
test the implementation relies on. -/
def own_inv (b : basic_builder) : Prop :=
  ∀ j, b.ptr = Ptr.own j → j = b.id ∧ b.zero_suffixed ≠ []

/-- Under make_zero_length the pointer member is not null. -/
def nn_inv (b : basic_builder) : Prop :=
  b.policy = if_null.make_zero_length → b.ptr ≠ Ptr.null

/-- Helper: _get_ptr yields a pointer into the own buffer only on the copy
path, where the buffer receives the (non-empty) sequence. -/
theorem get_ptr_own (w : Width) (p : if_null) (id : Nat) (src : Source) (j : Nat)
    (h : (get_ptr w p id src).2 = Ptr.own j) :
    j = id ∧ (get_ptr w p id src).1 ≠ [] := by
  cases src with
  | null_lit => simp only [get_ptr] at h; split at h <;> simp_all
  | raw_ptr q =>
      cases q with
      | none => simp only [get_ptr] at h; split at h <;> simp_all
      | some a => simp [get_ptr] at h
  | owned_str a => simp [get_ptr] at h
  | fs_path a => simp [get_ptr] at h
  | seq a data =>
      simp only [get_ptr] at h ⊢
      split at h
      · simp_all
      · split at h <;> simp_all

/-- Helper: under make_zero_length, _get_ptr never yields null. -/
theorem get_ptr_ne_null (w : Width) (id : Nat) (src : Source) :
    (get_ptr w if_null.make_zero_length id src).2 ≠ Ptr.null := by
  cases src with
  | null_lit => simp [get_ptr]
  | raw_ptr q => cases q <;> simp [get_ptr]
  | owned_str a => simp [get_ptr]
  | fs_path a => simp [get_ptr]
  | seq a data =>
      simp only [get_ptr]
      split
      · simp
      · split <;> simp

theorem own_inv_mk_from (w : Width) (p : if_null) (id : Nat) (src : Source) :
    own_inv (basic_builder.mk_from w p id src) :=
  fun j hj => get_ptr_own w p id src j hj

theorem own_inv_copy_used_member {a other : basic_builder} (hother : own_inv other) :
    own_inv (a.copy_used_member other) := by
  intro j hptr
  unfold basic_builder.copy_used_member at hptr ⊢
  by_cases hob : other.ptr = Ptr.own other.id
  · rw [if_pos hob] at hptr ⊢
    exact ⟨(Ptr.own.inj hptr).symm, (hother other.id hob).2⟩
  · rw [if_neg hob] at hptr ⊢
    exact absurd ((hother j hptr).1 ▸ hptr) hob

theorem own_inv_move_used_member_fst {a other : basic_builder} (hother : own_inv other) :
    own_inv (a.move_used_member other).1 := by
  intro j hptr
  unfold basic_builder.move_used_member at hptr ⊢
  by_cases hob : other.ptr = Ptr.own other.id
  · rw [if_pos hob] at hptr ⊢
    exact ⟨(Ptr.own.inj hptr).symm, (hother other.id hob).2⟩
  · rw [if_neg hob] at hptr ⊢
    exact absurd ((hother j hptr).1 ▸ hptr) hob

theorem own_inv_move_used_member_snd {a other : basic_builder} :
    own_inv (a.move_used_member other).2 := by
  intro j hptr
  exfalso
  unfold basic_builder.move_used_member at hptr
  by_cases hob : other.ptr = Ptr.own other.id <;>
    by_cases hp : other.policy = if_null.make_zero_length <;>
      simp [hob, hp, moved_from_ptr] at hptr

theorem own_inv_swap {a b : basic_builder} (ha : own_inv a) (hb : own_inv b) :
    own_inv (a.swap b).1 ∧ own_inv (a.swap b).2 := by
  unfold basic_builder.swap
  by_cases hid : a.id = b.id
  · rw [if_pos hid]
    exact ⟨ha, hb⟩
  rw [if_neg hid]
  by_cases hao : a.ptr = Ptr.own a.id <;> by_cases hbo : b.ptr = Ptr.own b.id
  · rw [if_neg (fun h => h.1 hao), if_pos ⟨hao, hbo⟩]
    refine ⟨fun j hj => ?_, fun j hj => ?_⟩
    · exact ⟨(Ptr.own.inj hj).symm, (hb b.id hbo).2⟩
    · exact ⟨(Ptr.own.inj hj).symm, (ha a.id hao).2⟩
  · rw [if_neg (fun h => h.1 hao), if_neg (fun h => hbo h.2), if_pos hao]
    refine ⟨fun j hj => ?_, fun j hj => ?_⟩
    · exact absurd ((hb j hj).1 ▸ hj) hbo
    · exact ⟨(Ptr.own.inj hj).symm, (ha a.id hao).2⟩
  · rw [if_neg (fun h => h.2 hbo), if_neg (fun h => hao h.1), if_neg hao]
    refine ⟨fun j hj => ?_, fun j hj => ?_⟩
    · exact ⟨(Ptr.own.inj hj).symm, (hb b.id hbo).2⟩
    · exact absurd ((ha j hj).1 ▸ hj) hao
  · rw [if_pos ⟨hao, hbo⟩]
    refine ⟨fun j hj => ?_, fun j hj => ?_⟩
    · exact absurd ((hb j hj).1 ▸ hj) hbo
    · exact absurd ((ha j hj).1 ▸ hj) hao

/-- In every reachable state the ownership test is sound: an owning
pointer names the object itself and its buffer is non-empty. -/
theorem reach_own_inv {b : basic_builder} (hb : Reachable b) : own_inv b := by
  induction hb with
  | construct w p id src => exact own_inv_mk_from w p id src
  | copy_construct j b hb hj ih => exact own_inv_copy_used_member ih
  | move_construct_dst j b hb hj ih => exact own_inv_move_used_member_fst ih
  | move_construct_src j b hb hj ih => exact own_inv_move_used_member_snd
  | copy_assignment a b ha hb hi iha ihb =>
      unfold basic_builder.copy_assign
      split
      · exact iha
      · exact own_inv_copy_used_member ihb
  | move_assignment_dst a b ha hb hi iha ihb =>
      unfold basic_builder.move_assign
      split
      · exact iha
      · exact own_inv_move_used_member_fst ihb
  | move_assignment_src a b ha hb hi iha ihb =>
      unfold basic_builder.move_assign
      split
      · exact ihb
      · exact own_inv_move_used_member_snd
  | swap_fst a b ha hb hi iha ihb => exact (own_inv_swap iha ihb).1
  | swap_snd a b ha hb hi iha ihb => exact (own_inv_swap iha ihb).2

theorem nn_inv_copy_used_member {a other : basic_builder}
    (hpol : a.policy = other.policy) (hother : nn_inv other) :
    nn_inv (a.copy_used_member other) := by
  intro hp
  unfold basic_builder.copy_used_member at hp ⊢
  by_cases hob : other.ptr = Ptr.own other.id
  · rw [if_pos hob]
    simp
  · rw [if_neg hob] at hp ⊢
    exact hother (hpol ▸ show a.policy = if_null.make_zero_length from hp)

theorem nn_inv_move_used_member_fst {a other : basic_builder}
    (hpol : a.policy = other.policy) (hother : nn_inv other) :
    nn_inv (a.move_used_member other).1 := by
  intro hp
  unfold basic_builder.move_used_member at hp ⊢
  by_cases hob : other.ptr = Ptr.own other.id
  · rw [if_pos hob]
    simp
  · rw [if_neg hob] at hp ⊢
    exact hother (hpol ▸ show a.policy = if_null.make_zero_length from hp)

theorem nn_inv_move_used_member_snd {a other : basic_builder} :
    nn_inv (a.move_used_member other).2 := by
  intro hp
  unfold basic_builder.move_used_member at hp ⊢
  by_cases hob : other.ptr = Ptr.own other.id
  · rw [if_pos hob] at hp ⊢
    simp [moved_from_ptr, show other.policy = if_null.make_zero_length from hp]
  · rw [if_neg hob] at hp ⊢
    simp [moved_from_ptr, show other.policy = if_null.make_zero_length from hp]

theorem nn_inv_swap {a b : basic_builder} (hpol : a.policy = b.policy)
    (ha : nn_inv a) (hb : nn_inv b) :
    nn_inv (a.swap b).1 ∧ nn_inv (a.swap b).2 := by
  unfold basic_builder.swap
  by_cases hid : a.id = b.id
  · rw [if_pos hid]
    exact ⟨ha, hb⟩
  rw [if_neg hid]
  by_cases hao : a.ptr = Ptr.own a.id <;> by_cases hbo : b.ptr = Ptr.own b.id
  · rw [if_neg (fun h => h.1 hao), if_pos ⟨hao, hbo⟩]
    exact ⟨fun _ => by simp, fun _ => by simp⟩
  · rw [if_neg (fun h => h.1 hao), if_neg (fun h => hbo h.2), if_pos hao]
    refine ⟨fun hp => ?_, fun _ => by simp⟩
    exact hb (hpol ▸ show a.policy = if_null.make_zero_length from hp)
  · rw [if_neg (fun h => h.2 hbo), if_neg (fun h => hao h.1), if_neg hao]
    refine ⟨fun _ => by simp, fun hp => ?_⟩
    exact ha (hpol.symm ▸ show b.policy = if_null.make_zero_length from hp)
  · rw [if_pos ⟨hao, hbo⟩]
    refine ⟨fun hp => ?_, fun hp => ?_⟩
    · exact hb (hpol ▸ show a.policy = if_null.make_zero_length from hp)
    · exact ha (hpol.symm ▸ show b.policy = if_null.make_zero_length from hp)

/-- In every reachable state under make_zero_length, the pointer member is
not null. -/
theorem reach_nn {b : basic_builder} (hb : Reachable b) : nn_inv b := by
  induction hb with
  | construct w p id src =>
      intro hp
      have hp' : p = if_null.make_zero_length := hp
      subst hp'
      exact get_ptr_ne_null w id src
  | copy_construct j b hb hj ih => exact nn_inv_copy_used_member rfl ih
  | move_construct_dst j b hb hj ih => exact nn_inv_move_used_member_fst rfl ih
  | move_construct_src j b hb hj ih => exact nn_inv_move_used_member_snd
  | copy_assignment a b ha hb hi iha ihb =>
      unfold basic_builder.copy_assign
      split
      · exact iha
      · exact nn_inv_copy_used_member hi.2 ihb
  | move_assignment_dst a b ha hb hi iha ihb =>
      unfold basic_builder.move_assign
      split
      · exact iha
      · exact nn_inv_move_used_member_fst hi.2 ihb
  | move_assignment_src a b ha hb hi iha ihb =>
      unfold basic_builder.move_assign
      split
      · exact ihb
      · exact nn_inv_move_used_member_snd
  | swap_fst a b ha hb hi iha ihb => exact (nn_inv_swap hi.2 iha ihb).1
  | swap_snd a b ha hb hi iha ihb => exact (nn_inv_swap hi.2 iha ihb).2

/-- length always equals the scan count of the referenced sequence; the
keep_null_pointer early return coincides with scanning the empty
sequence the null pointer denotes here. -/
theorem length_eq_strlen (b : basic_builder) (mem : Nat → List Nat) :
    b.length mem = strlen (c_str_at mem b.zero_suffixed b.ptr) := by
  unfold basic_builder.length
  split
  · rfl
  split
  · rename_i h
    rw [h]
    rfl
  · rfl

/-- The referenced sequence of a non-owning pointer does not depend on
the owned buffer. -/
theorem c_str_at_not_own {p : Ptr} (h : ∀ j, p ≠ Ptr.own j)
    (mem : Nat → List Nat) (buf1 buf2 : List Nat) :
    c_str_at mem buf1 p = c_str_at mem buf2 p := by
  cases p with
  | null => rfl
  | static_zero w q => rfl
  | ext a => rfl
  | own j => exact absurd rfl (h j)

/-- strlen counts exactly the characters before the first null. -/
theorem strlen_eq_takeWhile (l : List Nat) :
    strlen l = (l.takeWhile (fun c => c ≠ 0)).length := by
  induction l with
  | nil => rfl
  | cons c cs ih =>
      by_cases h : c = 0 <;> simp [strlen, h, ih]

/-- strlen of a sequence whose first null closes a null-free prefix is
the length of that prefix. -/
theorem strlen_append_zero (pre suf : List Nat) (hpre : ∀ c ∈ pre, c ≠ 0) :
    strlen (pre ++ 0 :: suf) = pre.length := by
  induction pre with
  | nil => simp [strlen]
  | cons c cs ih =>
      have hc : c ≠ 0 := hpre c (List.mem_cons_self c cs)
      simp only [List.cons_append, strlen, if_neg hc, List.length_cons]
      rw [show cs.append (0 :: suf) = cs ++ 0 :: suf from rfl,
        ih (fun d hd => hpre d (List.mem_cons_of_mem c hd))]

/-- The decision algorithm of spec section 4.1, category 4, stated in the
spec's own words for comparison with the implementation: an empty sequence
yields the shared static zero-value with no copy; otherwise, if the last
element is the null character, the sequence's own data address is used
with no copy; otherwise the full sequence becomes the owned buffer and the
result points at that buffer. -/
def spec_seq_decision (w : Width) (p : if_null) (id : Nat) (a : Nat)
    (data : List Nat) : List Nat × Ptr :=
  if h : data = [] then ([], Ptr.static_zero w p)
  else if data.getLast h = 0 then ([], Ptr.ext a)
  else (data, Ptr.own id)

/-- C1: construction from a generic contiguous sized sequence follows
exactly the spec's decision algorithm: empty sequence gives the (non-null)
shared static zero-value and no copy; otherwise the sequence's own data
address iff the last element is null, with no copy; otherwise the full
sequence (embedded nulls included) is copied into the owned buffer and the
pointer references that buffer; the copy path is the only one that leaves
a (non-empty) owned buffer behind, i.e. the only one that allocates. -/
theorem seq_construction_decision (w : Width) (p : if_null) (id : Nat)
    (a : Nat) (data : List Nat) :
    ((basic_builder.mk_from w p id (Source.seq a data)).zero_suffixed,
        (basic_builder.mk_from w p id (Source.seq a data)).get)
      = spec_seq_decision w p id a data
    ∧ Ptr.static_zero w p ≠ Ptr.null
    ∧ ((basic_builder.mk_from w p id (Source.seq a data)).zero_suffixed ≠ []
        ↔ (basic_builder.mk_from w p id (Source.seq a data)).get = Ptr.own id) := by
  unfold basic_builder.mk_from basic_builder.get get_ptr spec_seq_decision
  by_cases h : data = []
  · subst h
    simp
  · by_cases hl : data.getLast h = 0
    · simp [h, hl]
    · simp [h, hl]

/-- C2: for every width, construction from a null source (the nullptr
literal, a null pointer of the character type, or default construction,
which constructs from nullptr) yields under make_zero_length the non-null
address of the static zero-value and length 0, and under
keep_null_pointer the null pointer and length 0. -/
theorem null_source_construction (w : Width) (id : Nat) (mem : Nat → List Nat) :
    ((basic_builder.mk_from w if_null.make_zero_length id Source.null_lit).get
        = Ptr.static_zero w if_null.make_zero_length
      ∧ Ptr.static_zero w if_null.make_zero_length ≠ Ptr.null
      ∧ (basic_builder.mk_from w if_null.make_zero_length id Source.null_lit).length mem = 0)
    ∧ ((basic_builder.mk_from w if_null.make_zero_length id (Source.raw_ptr none)).get
        = Ptr.static_zero w if_null.make_zero_length
      ∧ (basic_builder.mk_from w if_null.make_zero_length id (Source.raw_ptr none)).length mem = 0)
    ∧ ((basic_builder.mk_from w if_null.keep_null_pointer id Source.null_lit).get = Ptr.null
      ∧ (basic_builder.mk_from w if_null.keep_null_pointer id Source.null_lit).length mem = 0)
    ∧ ((basic_builder.mk_from w if_null.keep_null_pointer id (Source.raw_ptr none)).get = Ptr.null
      ∧ (basic_builder.mk_from w if_null.keep_null_pointer id (Source.raw_ptr none)).length mem = 0)
    ∧ (∀ p : if_null, basic_builder.default_ctor w p id
        = basic_builder.mk_from w p id Source.null_lit) := by
  refine ⟨⟨rfl, by simp, rfl⟩, ⟨rfl, rfl⟩, ⟨rfl, rfl⟩, ⟨rfl, rfl⟩, fun p => rfl⟩

/-- C4: a non-null raw pointer source is returned by get() exactly as
passed, and an owned-string (basic_string) or platform-path
(filesystem::path) source yields that source's own c_str() data address;
in all three cases no copy is made (the owned buffer stays empty). -/
theorem trusted_pointer_identity (w : Width) (p : if_null) (id addr : Nat) :
    ((basic_builder.mk_from w p id (Source.raw_ptr (some addr))).get = Ptr.ext addr
      ∧ (basic_builder.mk_from w p id (Source.raw_ptr (some addr))).zero_suffixed = [])
    ∧ ((basic_builder.mk_from w p id (Source.owned_str addr)).get = Ptr.ext addr
      ∧ (basic_builder.mk_from w p id (Source.owned_str addr)).zero_suffixed = [])
    ∧ ((basic_builder.mk_from w p id (Source.fs_path addr)).get = Ptr.ext addr
      ∧ (basic_builder.mk_from w p id (Source.fs_path addr)).zero_suffixed = []) :=
  ⟨⟨rfl, rfl⟩, ⟨rfl, rfl⟩, ⟨rfl, rfl⟩⟩

/-- C10: a one-element sequence holding just the null character takes the
no-copy fast path, not the empty-sequence path: get() is the sequence's
own data address (not the shared static zero-value), the owned buffer
stays empty, and length() is 0. -/
theorem single_null_seq_fast_path (w : Width) (p : if_null) (id a : Nat)
    (mem : Nat → List Nat) (hmem : mem a = [0]) :
    (basic_builder.mk_from w p id (Source.seq a [0])).get = Ptr.ext a
    ∧ (∀ w2 p2, (basic_builder.mk_from w p id (Source.seq a [0])).get
        ≠ Ptr.static_zero w2 p2)
    ∧ (basic_builder.mk_from w p id (Source.seq a [0])).zero_suffixed = []
    ∧ (basic_builder.mk_from w p id (Source.seq a [0])).length mem = 0 := by
  refine ⟨rfl, by simp [basic_builder.mk_from, basic_builder.get, get_ptr], rfl, ?_⟩
  rw [length_eq_strlen]
  show strlen (c_str_at mem [] (Ptr.ext a)) = 0
  rw [show c_str_at mem [] (Ptr.ext a) = mem a from rfl, hmem]
  rfl

/-- Witness for C10 at a concrete address and memory. -/
theorem single_null_seq_fast_path_witness :
    (fun _ : Nat => ([0] : List Nat)) 5 = [0]
    ∧ (basic_builder.mk_from Width.narrow if_null.make_zero_length 7
        (Source.seq 5 [0])).get = Ptr.ext 5
    ∧ (basic_builder.mk_from Width.narrow if_null.make_zero_length 7
        (Source.seq 5 [0])).length (fun _ => [0]) = 0 := by
  refine ⟨rfl, ?_, ?_⟩
  · exact (single_null_seq_fast_path Width.narrow if_null.make_zero_length 7 5
      (fun _ => [0]) rfl).1
  · exact (single_null_seq_fast_path Width.narrow if_null.make_zero_length 7 5
      (fun _ => [0]) rfl).2.2.2

/-- Helper: a pointer that fails the ownership test has no owning form at
all in a state satisfying the ownership invariant. -/
theorem own_inv_not_own {b : basic_builder} (hI : own_inv b)
    (h : b.ptr ≠ Ptr.own b.id) : ∀ j, b.ptr ≠ Ptr.own j :=
  fun j hj => h ((hI j hj).1 ▸ hj)

/-- An adapter owning a copy of the sequence "ABC" (built from a generic
sequence whose last element is not null). -/
def abc_owner : basic_builder :=
  basic_builder.mk_from Width.narrow if_null.make_zero_length 0
    (Source.seq 100 [65, 66, 67])

/-- A non-owning adapter referencing a trusted external pointer. -/
def ext_ref : basic_builder :=
  basic_builder.mk_from Width.narrow if_null.make_zero_length 1
    (Source.raw_ptr (some 200))

/-- The state of the owner after the non-owning adapter is copy-assigned
into it: the pointer is replaced but the owned buffer is not cleared. -/
def stale_buffer_state : basic_builder :=
  basic_builder.copy_assign abc_owner ext_ref

/-- C3 counterexample: the state reached by constructing an adapter that
owns the copied sequence "ABC" and then copy-assigning a non-owning
adapter into it has a non-empty owned buffer while result_pointer does
not reference that buffer (it holds the assigned external pointer), so
Invariant I2 as claimed fails in a reachable state. -/
theorem invariant_I2_fails :
    Reachable stale_buffer_state
    ∧ stale_buffer_state.zero_suffixed ≠ []
    ∧ stale_buffer_state.ptr ≠ Ptr.own stale_buffer_state.id
    ∧ ∀ j, stale_buffer_state.ptr ≠ Ptr.own j := by
  refine ⟨?_, by decide, by decide, ?_⟩
  · exact Reachable.copy_assignment abc_owner ext_ref
      (Reachable.construct _ _ _ _) (Reachable.construct _ _ _ _) ⟨rfl, rfl⟩
  · intro j h
    rw [show stale_buffer_state.ptr = Ptr.ext 200 from rfl] at h
    exact Ptr.noConfusion h

/-- C3 amended: in every reachable state the ownership condition is sound
in the direction the implementation relies on: whenever result_pointer
equals the data address of an owned buffer, that buffer is the adapter's
own and is non-empty.  The converse direction of Invariant I2 (non-empty
owned buffer implies result_pointer references it) does not hold in every
reachable state: copy or move assignment from a non-owning source onto an
adapter that owned a buffer leaves the stale non-empty buffer in place
with result_pointer pointing elsewhere. -/
theorem ownership_check_sound {b : basic_builder} (hb : Reachable b) :
    ∀ j, b.ptr = Ptr.own j → j = b.id ∧ b.zero_suffixed ≠ [] :=
  reach_own_inv hb

/-- Witness for the amended C3 at a concrete owning reachable state. -/
theorem ownership_check_sound_witness :
    Reachable abc_owner ∧ abc_owner.ptr = Ptr.own 0
    ∧ (0 = abc_owner.id ∧ abc_owner.zero_suffixed ≠ []) :=
  ⟨Reachable.construct _ _ _ _, rfl,
   ownership_check_sound (Reachable.construct _ _ _ _) 0 rfl⟩

/-- C9: under the make_zero_length policy, result_pointer is never null
in any reachable adapter state (after construction from any source,
copy, move — including the moved-from object — and swap), so the
unconditional scan in length() never starts from a null pointer. -/
theorem zero_length_policy_ptr_nonnull {b : basic_builder} (hb : Reachable b)
    (hp : b.policy = if_null.make_zero_length) : b.ptr ≠ Ptr.null :=
  reach_nn hb hp

/-- Witness for C9 at a concrete reachable state. -/
theorem zero_length_policy_ptr_nonnull_witness :
    Reachable (basic_builder.mk_from Width.narrow if_null.make_zero_length 3
      Source.null_lit)
    ∧ (basic_builder.mk_from Width.narrow if_null.make_zero_length 3
        Source.null_lit).ptr ≠ Ptr.null :=
  ⟨Reachable.construct _ _ _ _,
   zero_length_policy_ptr_nonnull (Reachable.construct _ _ _ _) rfl⟩

/-- C8: length() is the count of characters from get() up to but not
including the first null character, recomputed from the referenced
sequence on each call.  In particular, an adapter built via the copy path
from a sequence whose first null sits at index pre.length (null-free
prefix pre, embedded null, non-null last element c) reports length
pre.length even though the owned buffer holds the whole sequence.  Under
keep_null_pointer a null pointer yields 0 without scanning. -/
theorem length_first_terminator (w : Width) (p : if_null) (id a : Nat)
    (pre mid : List Nat) (c : Nat) (mem : Nat → List Nat)
    (hpre : ∀ x ∈ pre, x ≠ 0) (hc : c ≠ 0) :
    (basic_builder.mk_from w p id (Source.seq a ((pre ++ 0 :: mid) ++ [c]))).zero_suffixed
        = (pre ++ 0 :: mid) ++ [c]
    ∧ (basic_builder.mk_from w p id (Source.seq a ((pre ++ 0 :: mid) ++ [c]))).length mem
        = pre.length
    ∧ (∀ b : basic_builder, b.policy = if_null.keep_null_pointer →
        b.ptr = Ptr.null → b.length mem = 0)
    ∧ (∀ b : basic_builder, b.length mem
        = ((c_str_at mem b.zero_suffixed b.ptr).takeWhile (fun x => x ≠ 0)).length) := by
  have hne : (pre ++ 0 :: mid) ++ [c] ≠ [] := by simp
  have hgp : get_ptr w p id (Source.seq a ((pre ++ 0 :: mid) ++ [c]))
      = ((pre ++ 0 :: mid) ++ [c], Ptr.own id) := by
    simp only [get_ptr]
    rw [dif_neg hne, if_pos]
    rw [List.getLast_concat]
    exact hc
  refine ⟨?_, ?_, ?_, ?_⟩
  · show (get_ptr w p id (Source.seq a ((pre ++ 0 :: mid) ++ [c]))).1 = _
    rw [hgp]
  · rw [length_eq_strlen]
    show strlen (c_str_at mem
      (get_ptr w p id (Source.seq a ((pre ++ 0 :: mid) ++ [c]))).1
      (get_ptr w p id (Source.seq a ((pre ++ 0 :: mid) ++ [c]))).2) = pre.length
    rw [hgp]
    show strlen (((pre ++ 0 :: mid) ++ [c]) ++ [0]) = pre.length
    rw [show ((pre ++ 0 :: mid) ++ [c]) ++ [0] = pre ++ 0 :: (mid ++ [c] ++ [0]) by simp]
    exact strlen_append_zero pre (mid ++ [c] ++ [0]) hpre
  · intro b hbp hbn
    unfold basic_builder.length
    rw [if_neg (by rw [hbp]; intro h; exact if_null.noConfusion h), if_pos hbn]
  · intro b
    rw [length_eq_strlen, strlen_eq_takeWhile]

/-- Witness for C8 at the concrete sequence [65, 0, 66, 67]. -/
theorem length_first_terminator_witness :
    (∀ x ∈ [65], x ≠ 0) ∧ (67 : Nat) ≠ 0
    ∧ (basic_builder.mk_from Width.narrow if_null.make_zero_length 0
        (Source.seq 9 [65, 0, 66, 67])).zero_suffixed = [65, 0, 66, 67]
    ∧ (basic_builder.mk_from Width.narrow if_null.make_zero_length 0
        (Source.seq 9 [65, 0, 66, 67])).length (fun _ => []) = 1 := by
  refine ⟨by decide, by decide, ?_, ?_⟩
  · exact (length_first_terminator Width.narrow if_null.make_zero_length 0 9
      [65] [66] 67 (fun _ => []) (by decide) (by decide)).1
  · exact (length_first_terminator Width.narrow if_null.make_zero_length 0 9
      [65] [66] 67 (fun _ => []) (by decide) (by decide)).2.1

/-- C7: copy construction and copy assignment deep-copy exactly when the
source's result_pointer references its own owned buffer: the destination
then holds its own copy of the buffer and points into it (so its get()
differs from the source's get() while the referenced character sequence
and hence length() agree, leaving the two adapters independent);
otherwise the destination's get() equals the source's get() verbatim.
Self-assignment is a no-op. -/
theorem copy_semantics (j : Nat) (a b : basic_builder) (mem : Nat → List Nat)
    (hab : a.id ≠ b.id) (hj : j ≠ b.id) (hi : same_inst a b) :
    ((b.ptr = Ptr.own b.id →
        (basic_builder.copy_ctor j b).zero_suffixed = b.zero_suffixed
        ∧ (basic_builder.copy_ctor j b).get = Ptr.own j
        ∧ (basic_builder.copy_ctor j b).get ≠ b.get
        ∧ c_str_at mem (basic_builder.copy_ctor j b).zero_suffixed
            (basic_builder.copy_ctor j b).ptr
          = c_str_at mem b.zero_suffixed b.ptr
        ∧ (basic_builder.copy_ctor j b).length mem = b.length mem)
      ∧ (b.ptr ≠ Ptr.own b.id → (basic_builder.copy_ctor j b).get = b.get))
    ∧ ((b.ptr = Ptr.own b.id →
        (basic_builder.copy_assign a b).zero_suffixed = b.zero_suffixed
        ∧ (basic_builder.copy_assign a b).get = Ptr.own a.id
        ∧ (basic_builder.copy_assign a b).get ≠ b.get
        ∧ c_str_at mem (basic_builder.copy_assign a b).zero_suffixed
            (basic_builder.copy_assign a b).ptr
          = c_str_at mem b.zero_suffixed b.ptr
        ∧ (basic_builder.copy_assign a b).length mem = b.length mem)
      ∧ (b.ptr ≠ Ptr.own b.id → (basic_builder.copy_assign a b).get = b.get))
    ∧ basic_builder.copy_assign a a = a := by
  have hassign : basic_builder.copy_assign a b = basic_builder.copy_used_member a b := by
    unfold basic_builder.copy_assign
    rw [if_neg hab]
  refine ⟨⟨fun hbo => ?_, fun hbo => ?_⟩, ⟨fun hbo => ?_, fun hbo => ?_⟩, ?_⟩
  · have hcc : basic_builder.copy_ctor j b
        = ⟨j, b.width, b.policy, b.zero_suffixed, Ptr.own j⟩ := by
      unfold basic_builder.copy_ctor basic_builder.copy_used_member
      rw [if_pos hbo]
    rw [hcc]
    refine ⟨rfl, rfl, ?_, ?_, ?_⟩
    · show Ptr.own j ≠ b.ptr
      rw [hbo]
      intro h
      exact hj (Ptr.own.inj h)
    · show b.zero_suffixed ++ [0] = c_str_at mem b.zero_suffixed b.ptr
      rw [hbo]
      rfl
    · rw [length_eq_strlen, length_eq_strlen]
      show strlen (b.zero_suffixed ++ [0]) = strlen (c_str_at mem b.zero_suffixed b.ptr)
      rw [hbo]
      rfl
  · have hcc : basic_builder.copy_ctor j b
        = ⟨j, b.width, b.policy, [], b.ptr⟩ := by
      unfold basic_builder.copy_ctor basic_builder.copy_used_member
      rw [if_neg hbo]
    rw [hcc]
    rfl
  · have hca : basic_builder.copy_used_member a b
        = ⟨a.id, a.width, a.policy, b.zero_suffixed, Ptr.own a.id⟩ := by
      unfold basic_builder.copy_used_member
      rw [if_pos hbo]
    rw [hassign, hca]
    refine ⟨rfl, rfl, ?_, ?_, ?_⟩
    · show Ptr.own a.id ≠ b.ptr
      rw [hbo]
      intro h
      exact hab (Ptr.own.inj h)
    · show b.zero_suffixed ++ [0] = c_str_at mem b.zero_suffixed b.ptr
      rw [hbo]
      rfl
    · rw [length_eq_strlen, length_eq_strlen]
      show strlen (b.zero_suffixed ++ [0]) = strlen (c_str_at mem b.zero_suffixed b.ptr)
      rw [hbo]
      rfl
  · have hca : basic_builder.copy_used_member a b
        = ⟨a.id, a.width, a.policy, a.zero_suffixed, b.ptr⟩ := by
      unfold basic_builder.copy_used_member
      rw [if_neg hbo]
    rw [hassign, hca]
    rfl
  · unfold basic_builder.copy_assign
    rw [if_pos rfl]

/-- Witness for C7: copy-assigning an owning adapter into a non-owning
one deep-copies the buffer and repoints into the destination's copy. -/
theorem copy_semantics_witness :
    (0 : Nat) ≠ 1 ∧ (5 : Nat) ≠ 1
    ∧ (basic_builder.copy_assign
        (basic_builder.mk_from Width.narrow if_null.make_zero_length 0
          (Source.raw_ptr (some 300)))
        (basic_builder.mk_from Width.narrow if_null.make_zero_length 1
          (Source.seq 100 [65, 66, 67]))).zero_suffixed = [65, 66, 67]
    ∧ (basic_builder.copy_assign
        (basic_builder.mk_from Width.narrow if_null.make_zero_length 0
          (Source.raw_ptr (some 300)))
        (basic_builder.mk_from Width.narrow if_null.make_zero_length 1
          (Source.seq 100 [65, 66, 67]))).get = Ptr.own 0 := by
  refine ⟨by decide, by decide, ?_, ?_⟩
  · exact ((copy_semantics 5
      (basic_builder.mk_from Width.narrow if_null.make_zero_length 0
        (Source.raw_ptr (some 300)))
      (basic_builder.mk_from Width.narrow if_null.make_zero_length 1
        (Source.seq 100 [65, 66, 67]))
      (fun _ => []) (by decide) (by decide) ⟨rfl, rfl⟩).2.1.1 rfl).1
  · exact ((copy_semantics 5
      (basic_builder.mk_from Width.narrow if_null.make_zero_length 0
        (Source.raw_ptr (some 300)))
      (basic_builder.mk_from Width.narrow if_null.make_zero_length 1
        (Source.seq 100 [65, 66, 67]))
      (fun _ => []) (by decide) (by decide) ⟨rfl, rfl⟩).2.1.1 rfl).2.1

/-- Helper: the pointer a moved-from object receives is exactly the
pointer a null-source construction of the same instantiation yields. -/
theorem moved_from_ptr_eq_null_state (b : basic_builder) :
    moved_from_ptr b
      = (basic_builder.mk_from b.width b.policy b.id Source.null_lit).get := by
  show moved_from_ptr b = (get_ptr b.width b.policy b.id Source.null_lit).2
  unfold moved_from_ptr
  simp only [get_ptr]
  by_cases hp : b.policy = if_null.make_zero_length
  · rw [if_pos hp, if_pos hp]
  · rw [if_neg hp, if_neg hp]

/-- Helper: any state whose pointer is the moved-from pointer observes
length 0. -/
theorem moved_from_length_zero (x : basic_builder) (hx : x.ptr = moved_from_ptr x)
    (mem : Nat → List Nat) : x.length mem = 0 := by
  rw [length_eq_strlen, hx]
  unfold moved_from_ptr
  by_cases hp : x.policy = if_null.make_zero_length
  · rw [if_pos hp]
    rfl
  · rw [if_neg hp]
    rfl

/-- C5: move construction and move assignment transfer the buffer exactly
when the source owns it (the destination then points into the transferred
buffer and the moved-from buffer becomes empty); otherwise the pointer
value transfers verbatim.  In all cases the moved-from adapter afterwards
observably equals the null-source state of its own policy: its get()
equals the pointer a null-source construction of the same instantiation
yields, and its length() is 0.  Self-move assignment is a no-op. -/
theorem move_semantics (j : Nat) (a b : basic_builder) (mem : Nat → List Nat)
    (hab : a.id ≠ b.id) (hj : j ≠ b.id) (hi : same_inst a b) :
    ((b.ptr = Ptr.own b.id →
        (basic_builder.move_ctor j b).1.zero_suffixed = b.zero_suffixed
        ∧ (basic_builder.move_ctor j b).1.get = Ptr.own j
        ∧ (basic_builder.move_ctor j b).2.zero_suffixed = [])
      ∧ (b.ptr ≠ Ptr.own b.id → (basic_builder.move_ctor j b).1.get = b.get)
      ∧ (basic_builder.move_ctor j b).2.get
          = (basic_builder.mk_from b.width b.policy b.id Source.null_lit).get
      ∧ (basic_builder.move_ctor j b).2.length mem = 0)
    ∧ ((b.ptr = Ptr.own b.id →
        (basic_builder.move_assign a b).1.zero_suffixed = b.zero_suffixed
        ∧ (basic_builder.move_assign a b).1.get = Ptr.own a.id
        ∧ (basic_builder.move_assign a b).2.zero_suffixed = [])
      ∧ (b.ptr ≠ Ptr.own b.id → (basic_builder.move_assign a b).1.get = b.get)
      ∧ (basic_builder.move_assign a b).2.get
          = (basic_builder.mk_from b.width b.policy b.id Source.null_lit).get
      ∧ (basic_builder.move_assign a b).2.length mem = 0)
    ∧ basic_builder.move_assign a a = (a, a) := by
  have hassign : basic_builder.move_assign a b = basic_builder.move_used_member a b := by
    unfold basic_builder.move_assign
    rw [if_neg hab]
  have hself : basic_builder.move_assign a a = (a, a) := by
    unfold basic_builder.move_assign
    rw [if_pos rfl]
  by_cases hbo : b.ptr = Ptr.own b.id
  · have hmc : basic_builder.move_ctor j b
        = (⟨j, b.width, b.policy, b.zero_suffixed, Ptr.own j⟩,
           ⟨b.id, b.width, b.policy, [], moved_from_ptr b⟩) := by
      unfold basic_builder.move_ctor basic_builder.move_used_member
      rw [if_pos hbo]
    have hma : basic_builder.move_used_member a b
        = (⟨a.id, a.width, a.policy, b.zero_suffixed, Ptr.own a.id⟩,
           ⟨b.id, b.width, b.policy, [], moved_from_ptr b⟩) := by
      unfold basic_builder.move_used_member
      rw [if_pos hbo]
    rw [hmc, hassign, hma]
    refine ⟨⟨fun _ => ⟨rfl, rfl, rfl⟩, fun h => absurd hbo h, ?_, ?_⟩,
      ⟨fun _ => ⟨rfl, rfl, rfl⟩, fun h => absurd hbo h, ?_, ?_⟩, hself⟩
    · exact moved_from_ptr_eq_null_state b
    · exact moved_from_length_zero _ rfl mem
    · exact moved_from_ptr_eq_null_state b
    · exact moved_from_length_zero _ rfl mem
  · have hmc : basic_builder.move_ctor j b
        = (⟨j, b.width, b.policy, [], b.ptr⟩,
           ⟨b.id, b.width, b.policy, b.zero_suffixed, moved_from_ptr b⟩) := by
      unfold basic_builder.move_ctor basic_builder.move_used_member
      rw [if_neg hbo]
    have hma : basic_builder.move_used_member a b
        = (⟨a.id, a.width, a.policy, a.zero_suffixed, b.ptr⟩,
           ⟨b.id, b.width, b.policy, b.zero_suffixed, moved_from_ptr b⟩) := by
      unfold basic_builder.move_used_member
      rw [if_neg hbo]
    rw [hmc, hassign, hma]
    refine ⟨⟨fun h => absurd h hbo, fun _ => rfl, ?_, ?_⟩,
      ⟨fun h => absurd h hbo, fun _ => rfl, ?_, ?_⟩, hself⟩
    · exact moved_from_ptr_eq_null_state b
    · exact moved_from_length_zero _ rfl mem
    · exact moved_from_ptr_eq_null_state b
    · exact moved_from_length_zero _ rfl mem

/-- Witness for C5: moving an owning adapter into a non-owning one
transfers the buffer; the moved-from adapter observes length 0. -/
theorem move_semantics_witness :
    (0 : Nat) ≠ 1 ∧ (5 : Nat) ≠ 1
    ∧ (basic_builder.move_assign
        (basic_builder.mk_from Width.narrow if_null.make_zero_length 0
          (Source.raw_ptr (some 300)))
        (basic_builder.mk_from Width.narrow if_null.make_zero_length 1
          (Source.seq 100 [65, 66, 67]))).1.zero_suffixed = [65, 66, 67]
    ∧ (basic_builder.move_assign
        (basic_builder.mk_from Width.narrow if_null.make_zero_length 0
          (Source.raw_ptr (some 300)))
        (basic_builder.mk_from Width.narrow if_null.make_zero_length 1
          (Source.seq 100 [65, 66, 67]))).2.length (fun _ => []) = 0 := by
  refine ⟨by decide, by decide, ?_, ?_⟩
  · exact ((move_semantics 5
      (basic_builder.mk_from Width.narrow if_null.make_zero_length 0
        (Source.raw_ptr (some 300)))
      (basic_builder.mk_from Width.narrow if_null.make_zero_length 1
        (Source.seq 100 [65, 66, 67]))
      (fun _ => []) (by decide) (by decide) ⟨rfl, rfl⟩).2.1.1 rfl).1
  · exact (move_semantics 5
      (basic_builder.mk_from Width.narrow if_null.make_zero_length 0
        (Source.raw_ptr (some 300)))
      (basic_builder.mk_from Width.narrow if_null.make_zero_length 1
        (Source.seq 100 [65, 66, 67]))
      (fun _ => []) (by decide) (by decide) ⟨rfl, rfl⟩).2.1.2.2.2

/-- C6: swapping two distinct reachable adapters of one instantiation
exchanges their observable states: each side's referenced character
sequence and length() afterwards equal the other side's beforehand; a
non-owning pointer is exchanged verbatim, while an owning pointer is
correctly repointed at the receiving adapter's own buffer, which then
holds the other side's previous buffer contents.  Self-swap is a no-op. -/
theorem swap_exchanges_observable_state (a b : basic_builder)
    (mem : Nat → List Nat) (ha : Reachable a) (hb : Reachable b)
    (hab : a.id ≠ b.id) (hi : same_inst a b) :
    (basic_builder.swap a b).1.length mem = b.length mem
    ∧ (basic_builder.swap a b).2.length mem = a.length mem
    ∧ c_str_at mem (basic_builder.swap a b).1.zero_suffixed
        (basic_builder.swap a b).1.ptr
      = c_str_at mem b.zero_suffixed b.ptr
    ∧ c_str_at mem (basic_builder.swap a b).2.zero_suffixed
        (basic_builder.swap a b).2.ptr
      = c_str_at mem a.zero_suffixed a.ptr
    ∧ (b.ptr ≠ Ptr.own b.id → (basic_builder.swap a b).1.get = b.get)
    ∧ (a.ptr ≠ Ptr.own a.id → (basic_builder.swap a b).2.get = a.get)
    ∧ (b.ptr = Ptr.own b.id → (basic_builder.swap a b).1.get = Ptr.own a.id
        ∧ (basic_builder.swap a b).1.zero_suffixed = b.zero_suffixed)
    ∧ (a.ptr = Ptr.own a.id → (basic_builder.swap a b).2.get = Ptr.own b.id
        ∧ (basic_builder.swap a b).2.zero_suffixed = a.zero_suffixed)
    ∧ basic_builder.swap a a = (a, a) := by
  have haI := reach_own_inv ha
  have hbI := reach_own_inv hb
  have hselfswap : basic_builder.swap a a = (a, a) := by
    unfold basic_builder.swap
    rw [if_pos rfl]
  by_cases hao : a.ptr = Ptr.own a.id <;> by_cases hbo : b.ptr = Ptr.own b.id
  · have hs : basic_builder.swap a b
        = (⟨a.id, a.width, a.policy, b.zero_suffixed, Ptr.own a.id⟩,
           ⟨b.id, b.width, b.policy, a.zero_suffixed, Ptr.own b.id⟩) := by
      unfold basic_builder.swap
      rw [if_neg hab, if_neg (fun h => h.1 hao), if_pos ⟨hao, hbo⟩]
    have hc1 : c_str_at mem (basic_builder.swap a b).1.zero_suffixed
        (basic_builder.swap a b).1.ptr = c_str_at mem b.zero_suffixed b.ptr := by
      rw [hs, hbo]
      all_goals rfl
    have hc2 : c_str_at mem (basic_builder.swap a b).2.zero_suffixed
        (basic_builder.swap a b).2.ptr = c_str_at mem a.zero_suffixed a.ptr := by
      rw [hs, hao]
      all_goals rfl
    refine ⟨?_, ?_, hc1, hc2, fun h => absurd hbo h, fun h => absurd hao h,
      fun _ => ⟨by rw [hs]; all_goals rfl, by rw [hs]; all_goals rfl⟩, fun _ => ⟨by rw [hs]; all_goals rfl, by rw [hs]; all_goals rfl⟩,
      hselfswap⟩
    · rw [length_eq_strlen, length_eq_strlen, hc1]
    · rw [length_eq_strlen, length_eq_strlen, hc2]
  · have hs : basic_builder.swap a b
        = (⟨a.id, a.width, a.policy, b.zero_suffixed, b.ptr⟩,
           ⟨b.id, b.width, b.policy, a.zero_suffixed, Ptr.own b.id⟩) := by
      unfold basic_builder.swap
      rw [if_neg hab, if_neg (fun h => h.1 hao), if_neg (fun h => hbo h.2),
        if_pos hao]
    have hc1 : c_str_at mem (basic_builder.swap a b).1.zero_suffixed
        (basic_builder.swap a b).1.ptr = c_str_at mem b.zero_suffixed b.ptr := by
      rw [hs]
      all_goals rfl
    have hc2 : c_str_at mem (basic_builder.swap a b).2.zero_suffixed
        (basic_builder.swap a b).2.ptr = c_str_at mem a.zero_suffixed a.ptr := by
      rw [hs, hao]
      all_goals rfl
    refine ⟨?_, ?_, hc1, hc2, fun _ => by rw [hs]; all_goals rfl, fun h => absurd hao h,
      fun h => absurd h hbo, fun _ => ⟨by rw [hs]; all_goals rfl, by rw [hs]; all_goals rfl⟩, hselfswap⟩
    · rw [length_eq_strlen, length_eq_strlen, hc1]
    · rw [length_eq_strlen, length_eq_strlen, hc2]
  · have hs : basic_builder.swap a b
        = (⟨a.id, a.width, a.policy, b.zero_suffixed, Ptr.own a.id⟩,
           ⟨b.id, b.width, b.policy, a.zero_suffixed, a.ptr⟩) := by
      unfold basic_builder.swap
      rw [if_neg hab, if_neg (fun h => h.2 hbo), if_neg (fun h => hao h.1),
        if_neg hao]
    have hc1 : c_str_at mem (basic_builder.swap a b).1.zero_suffixed
        (basic_builder.swap a b).1.ptr = c_str_at mem b.zero_suffixed b.ptr := by
      rw [hs, hbo]
      all_goals rfl
    have hc2 : c_str_at mem (basic_builder.swap a b).2.zero_suffixed
        (basic_builder.swap a b).2.ptr = c_str_at mem a.zero_suffixed a.ptr := by
      rw [hs]
      all_goals rfl
    refine ⟨?_, ?_, hc1, hc2, fun h => absurd hbo h, fun _ => by rw [hs]; all_goals rfl,
      fun _ => ⟨by rw [hs]; all_goals rfl, by rw [hs]; all_goals rfl⟩, fun h => absurd h hao, hselfswap⟩
    · rw [length_eq_strlen, length_eq_strlen, hc1]
    · rw [length_eq_strlen, length_eq_strlen, hc2]
  · have hs : basic_builder.swap a b
        = (⟨a.id, a.width, a.policy, a.zero_suffixed, b.ptr⟩,
           ⟨b.id, b.width, b.policy, b.zero_suffixed, a.ptr⟩) := by
      unfold basic_builder.swap
      rw [if_neg hab, if_pos ⟨hao, hbo⟩]
    have hc1 : c_str_at mem (basic_builder.swap a b).1.zero_suffixed
        (basic_builder.swap a b).1.ptr = c_str_at mem b.zero_suffixed b.ptr := by
      rw [hs]
      exact c_str_at_not_own (own_inv_not_own hbI hbo) mem a.zero_suffixed
        b.zero_suffixed
    have hc2 : c_str_at mem (basic_builder.swap a b).2.zero_suffixed
        (basic_builder.swap a b).2.ptr = c_str_at mem a.zero_suffixed a.ptr := by
      rw [hs]
      exact c_str_at_not_own (own_inv_not_own haI hao) mem b.zero_suffixed
        a.zero_suffixed
    refine ⟨?_, ?_, hc1, hc2, fun _ => by rw [hs]; all_goals rfl, fun _ => by rw [hs]; all_goals rfl,
      fun h => absurd h hbo, fun h => absurd h hao, hselfswap⟩
    · rw [length_eq_strlen, length_eq_strlen, hc1]
    · rw [length_eq_strlen, length_eq_strlen, hc2]

/-- Witness for C6: swapping an owning and a non-owning reachable adapter
exchanges their observable lengths. -/
theorem swap_exchanges_observable_state_witness :
    Reachable (basic_builder.mk_from Width.narrow if_null.make_zero_length 0
      (Source.seq 100 [65, 66, 67]))
    ∧ Reachable (basic_builder.mk_from Width.narrow if_null.make_zero_length 1
      (Source.raw_ptr (some 200)))
    ∧ (0 : Nat) ≠ 1
    ∧ (basic_builder.swap
        (basic_builder.mk_from Width.narrow if_null.make_zero_length 0
          (Source.seq 100 [65, 66, 67]))
        (basic_builder.mk_from Width.narrow if_null.make_zero_length 1
          (Source.raw_ptr (some 200)))).1.length (fun _ => [66, 0])
      = (basic_builder.mk_from Width.narrow if_null.make_zero_length 1
          (Source.raw_ptr (some 200))).length (fun _ => [66, 0]) := by
  refine ⟨Reachable.construct _ _ _ _, Reachable.construct _ _ _ _, by decide, ?_⟩
  exact (swap_exchanges_observable_state
    (basic_builder.mk_from Width.narrow if_null.make_zero_length 0
      (Source.seq 100 [65, 66, 67]))
    (basic_builder.mk_from Width.narrow if_null.make_zero_length 1
      (Source.raw_ptr (some 200)))
    (fun _ => [66, 0]) (Reachable.construct _ _ _ _) (Reachable.construct _ _ _ _)
    (by decide) ⟨rfl, rfl⟩).1

end c_str
